import Mathlib

/-!
Verification of the auth-kit OAuth/social-login subsystem.

This file shallowly embeds the subsystem's core modules and proves the
frozen claims about them:

* `core/crypto_oauth.py`  — AES-256-GCM envelope encryption for tokens at rest
  (the AEAD primitive itself is the external `cryptography` library and is
  modelled by an abstract interface carrying its documented contract);
* `core/oauth_state.py`   — signed OAuth state tokens (the JWT codec is the
  external `jose` library, modelled by its documented contract);
* `api/oauth.py`          — the orchestrator endpoints (callback, link,
  unlink, links listing) over an explicit relational-store model;
* the `OAuthProfile` dataclass of `services/oauth/providers/base.py` and the
  pydantic response schemas of `schemas/oauth.py`, modelled at the level of
  their field lists where claims are about constructor-call validity.

Python strings at the byte-processing layer are lists of unicode codepoints
(`PyStr`); bytes are lists of naturals below 256.
-/

namespace AuthKit

/-! ## Byte strings -/

/-- A Python `str` at the codec layer: its sequence of unicode codepoints. -/
abbrev PyStr := List Nat

/-- A Python `bytes` value: a list of naturals, each below 256. -/
abbrev Bytes := List Nat

/-- All members of a byte string are genuine bytes. -/
def ValidBytes (l : Bytes) : Prop := ∀ b ∈ l, b < 256

instance : DecidablePred ValidBytes := fun l =>
  inferInstanceAs (Decidable (∀ b ∈ l, b < 256))

/-! ## Base64 (model of Python `base64.b64encode` / `base64.b64decode`)

Standard base64 with `=` padding over the byte alphabet; the decoder
rejects input that is not a sequence of 4-character groups of alphabet
characters with trailing padding.  `=` is byte 61. -/

/-- The base64 alphabet: maps a 6-bit value to its ASCII byte. -/
def b64EncChar (n : Nat) : Nat :=
  if n < 26 then 65 + n
  else if n < 52 then 97 + (n - 26)
  else if n < 62 then 48 + (n - 52)
  else if n = 62 then 43
  else 47

/-- Inverse of the base64 alphabet; `none` for a byte outside it. -/
def b64DecChar (c : Nat) : Option Nat :=
  if 65 ≤ c ∧ c ≤ 90 then some (c - 65)
  else if 97 ≤ c ∧ c ≤ 122 then some (c - 97 + 26)
  else if 48 ≤ c ∧ c ≤ 57 then some (c - 48 + 52)
  else if c = 43 then some 62
  else if c = 47 then some 63
  else none

/-- Base64-encode a byte string, three bytes to four characters, padding
the final group with `=`. -/
def b64Encode : Bytes → Bytes
  | b1 :: b2 :: b3 :: rest =>
      b64EncChar (b1 / 4) :: b64EncChar (b1 % 4 * 16 + b2 / 16) ::
      b64EncChar (b2 % 16 * 4 + b3 / 64) :: b64EncChar (b3 % 64) :: b64Encode rest
  | [b1, b2] =>
      [b64EncChar (b1 / 4), b64EncChar (b1 % 4 * 16 + b2 / 16),
       b64EncChar (b2 % 16 * 4), 61]
  | [b1] =>
      [b64EncChar (b1 / 4), b64EncChar (b1 % 4 * 16), 61, 61]
  | [] => []

/-- Base64-decode; `none` models `binascii.Error` from `base64.b64decode`. -/
def b64Decode : Bytes → Option Bytes
  | [] => some []
  | c1 :: c2 :: c3 :: c4 :: rest =>
      match b64DecChar c1, b64DecChar c2 with
      | some d1, some d2 =>
        if c3 = 61 then
          if c4 = 61 ∧ rest = [] then some [d1 * 4 + d2 / 16] else none
        else
          match b64DecChar c3 with
          | some d3 =>
            if c4 = 61 then
              if rest = [] then some [d1 * 4 + d2 / 16, d2 % 16 * 16 + d3 / 4]
              else none
            else
              match b64DecChar c4 with
              | some d4 =>
                (b64Decode rest).map
                  (fun tail =>
                    (d1 * 4 + d2 / 16) :: (d2 % 16 * 16 + d3 / 4) ::
                    (d3 % 4 * 64 + d4) :: tail)
              | none => none
          | none => none
      | _, _ => none
  | _ => none

theorem b64DecChar_encChar : ∀ n < 64, b64DecChar (b64EncChar n) = some n := by
  decide

theorem b64EncChar_ne_pad : ∀ n < 64, b64EncChar n ≠ 61 := by
  decide

theorem b64Decode_b64Encode {l : Bytes} (h : ValidBytes l) :
    b64Decode (b64Encode l) = some l := by
  induction l using b64Encode.induct with
  | case1 b1 b2 b3 rest ih =>
      have hb1 : b1 < 256 := h b1 (by simp)
      have hb2 : b2 < 256 := h b2 (by simp)
      have hb3 : b3 < 256 := h b3 (by simp)
      have h1 : b1 / 4 < 64 := by omega
      have h2 : b1 % 4 * 16 + b2 / 16 < 64 := by omega
      have h3 : b2 % 16 * 4 + b3 / 64 < 64 := by omega
      have h4 : b3 % 64 < 64 := by omega
      have ih' := ih (fun b hb => h b (by simp [hb]))
      simp only [b64Encode, b64Decode, b64DecChar_encChar _ h1,
        b64DecChar_encChar _ h2, b64DecChar_encChar _ h3, b64DecChar_encChar _ h4,
        if_neg (b64EncChar_ne_pad _ h3), if_neg (b64EncChar_ne_pad _ h4),
        ih', Option.map_some']
      have e1 : b1 / 4 * 4 + (b1 % 4 * 16 + b2 / 16) / 16 = b1 := by omega
      have e2 : (b1 % 4 * 16 + b2 / 16) % 16 * 16 + (b2 % 16 * 4 + b3 / 64) / 4 = b2 := by
        omega
      have e3 : (b2 % 16 * 4 + b3 / 64) % 4 * 64 + b3 % 64 = b3 := by omega
      simp [e1, e2, e3]
  | case2 b1 b2 =>
      have hb1 : b1 < 256 := h b1 (by simp)
      have hb2 : b2 < 256 := h b2 (by simp)
      have h1 : b1 / 4 < 64 := by omega
      have h2 : b1 % 4 * 16 + b2 / 16 < 64 := by omega
      have h3 : b2 % 16 * 4 < 64 := by omega
      simp only [b64Encode, b64Decode, b64DecChar_encChar _ h1,
        b64DecChar_encChar _ h2, b64DecChar_encChar _ h3,
        if_neg (b64EncChar_ne_pad _ h3)]
      have e1 : b1 / 4 * 4 + (b1 % 4 * 16 + b2 / 16) / 16 = b1 := by omega
      have e2 : (b1 % 4 * 16 + b2 / 16) % 16 * 16 + b2 % 16 * 4 / 4 = b2 := by omega
      simp [e1, e2] <;> omega
  | case3 b1 =>
      have hb1 : b1 < 256 := h b1 (by simp)
      have h1 : b1 / 4 < 64 := by omega
      have h2 : b1 % 4 * 16 < 64 := by omega
      simp only [b64Encode, b64Decode, b64DecChar_encChar _ h1,
        b64DecChar_encChar _ h2]
      have e1 : b1 / 4 * 4 + b1 % 4 * 16 / 16 = b1 := by omega
      simp [e1] <;> omega
  | case4 => simp [b64Encode, b64Decode]

/-! ## URL-safe base64 (model of `base64.urlsafe_b64encode`) -/

/-- The `+`/`/` substitution of the url-safe alphabet. -/
def urlsafeSub (c : Nat) : Nat := if c = 43 then 45 else if c = 47 then 95 else c

/-- `base64.urlsafe_b64encode`: standard encoding with `+` (43) replaced by
`-` (45) and `/` (47) by `_` (95). -/
def urlsafeB64Encode (l : Bytes) : Bytes :=
  (b64Encode l).map urlsafeSub

/-- Python `bytes.rstrip(b"=")`: drop trailing `=` (61) bytes. -/
def rstripPad (l : Bytes) : Bytes :=
  (l.reverse.dropWhile (fun c => c = 61)).reverse

theorem rstripPad_eq_nil_iff (l : Bytes) :
    rstripPad l = [] ↔ ∀ c ∈ l, c = 61 := by
  unfold rstripPad
  rw [List.reverse_eq_nil_iff, List.dropWhile_eq_nil_iff]
  constructor
  · intro h c hc
    have := h c (List.mem_reverse.mpr hc)
    simpa using this
  · intro h c hc
    simp [h c (List.mem_reverse.mp hc)]

theorem urlsafeSub_ne_pad {c : Nat} (h : c ≠ 61) : urlsafeSub c ≠ 61 := by
  unfold urlsafeSub
  split
  · omega
  · split
    · omega
    · exact h

theorem b64Encode_cons (b : Nat) (rest : Bytes) :
    ∃ tail, b64Encode (b :: rest) = b64EncChar (b / 4) :: tail := by
  match rest with
  | [] => exact ⟨_, rfl⟩
  | [b2] => exact ⟨_, rfl⟩
  | b2 :: b3 :: r => exact ⟨_, rfl⟩

theorem rstripPad_urlsafe_ne_nil {b : Nat} {rest : Bytes} (hb : b < 256) :
    rstripPad (urlsafeB64Encode (b :: rest)) ≠ [] := by
  obtain ⟨tail, htail⟩ := b64Encode_cons b rest
  have hhead : urlsafeSub (b64EncChar (b / 4)) ≠ 61 :=
    urlsafeSub_ne_pad (b64EncChar_ne_pad _ (by omega))
  intro hnil
  rw [rstripPad_eq_nil_iff] at hnil
  apply hhead
  apply hnil
  unfold urlsafeB64Encode
  rw [htail]
  simp [urlsafeSub]

/-! ## UTF-8 (model of Python `str.encode("utf-8")` / `bytes.decode("utf-8")`) -/

/-- A codepoint Python's UTF-8 codec accepts: in range and not a surrogate. -/
def ValidCodepoint (c : Nat) : Prop := c < 0x110000 ∧ ¬(0xD800 ≤ c ∧ c < 0xE000)

instance : DecidablePred ValidCodepoint := fun c =>
  inferInstanceAs (Decidable (c < 0x110000 ∧ ¬(0xD800 ≤ c ∧ c < 0xE000)))

/-- UTF-8 encoding of one codepoint. -/
def utf8EncodeChar (c : Nat) : Bytes :=
  if c < 0x80 then [c]
  else if c < 0x800 then [0xC0 + c / 64, 0x80 + c % 64]
  else if c < 0x10000 then [0xE0 + c / 4096, 0x80 + c / 64 % 64, 0x80 + c % 64]
  else [0xF0 + c / 262144, 0x80 + c / 4096 % 64, 0x80 + c / 64 % 64, 0x80 + c % 64]

/-- `str.encode("utf-8")`. -/
def utf8Encode (s : PyStr) : Bytes := s.flatMap utf8EncodeChar

/-- A UTF-8 continuation byte. -/
def IsCont (b : Nat) : Prop := 0x80 ≤ b ∧ b < 0xC0

instance : DecidablePred IsCont := fun b =>
  inferInstanceAs (Decidable (0x80 ≤ b ∧ b < 0xC0))

/-- Decode one codepoint from leading byte `b` and remaining bytes `rest`;
returns the codepoint and the bytes left over.  Strict: rejects stray or
missing continuation bytes, overlong forms, surrogates, out-of-range. -/
def utf8DecodeOne (b : Nat) (rest : Bytes) : Option (Nat × Bytes) :=
  if b < 0x80 then some (b, rest)
  else if b < 0xC0 then none
  else if b < 0xE0 then
    match rest with
    | b2 :: rest2 =>
      if IsCont b2 then
        if (b - 0xC0) * 64 + (b2 - 0x80) < 0x80 then none
        else some ((b - 0xC0) * 64 + (b2 - 0x80), rest2)
      else none
    | [] => none
  else if b < 0xF0 then
    match rest with
    | b2 :: b3 :: rest3 =>
      if IsCont b2 ∧ IsCont b3 then
        if (b - 0xE0) * 4096 + (b2 - 0x80) * 64 + (b3 - 0x80) < 0x800 ∨
           (0xD800 ≤ (b - 0xE0) * 4096 + (b2 - 0x80) * 64 + (b3 - 0x80) ∧
            (b - 0xE0) * 4096 + (b2 - 0x80) * 64 + (b3 - 0x80) < 0xE000) then none
        else some ((b - 0xE0) * 4096 + (b2 - 0x80) * 64 + (b3 - 0x80), rest3)
      else none
    | _ => none
  else if b < 0xF8 then
    match rest with
    | b2 :: b3 :: b4 :: rest4 =>
      if IsCont b2 ∧ IsCont b3 ∧ IsCont b4 then
        if (b - 0xF0) * 262144 + (b2 - 0x80) * 4096 + (b3 - 0x80) * 64 + (b4 - 0x80)
             < 0x10000 ∨
           0x110000 ≤ (b - 0xF0) * 262144 + (b2 - 0x80) * 4096 + (b3 - 0x80) * 64 +
             (b4 - 0x80) then none
        else some
          ((b - 0xF0) * 262144 + (b2 - 0x80) * 4096 + (b3 - 0x80) * 64 + (b4 - 0x80),
           rest4)
      else none
    | _ => none
  else none

theorem utf8DecodeOne_length {b : Nat} {rest rem : Bytes} {c : Nat}
    (h : utf8DecodeOne b rest = some (c, rem)) : rem.length ≤ rest.length := by
  unfold utf8DecodeOne at h
  repeat' split at h
  all_goals simp_all
  all_goals omega

/-- Fuel-driven decoding loop; fuel bounds the number of decoded codepoints. -/
def utf8DecodeFuel : Nat → Bytes → Option PyStr
  | _, [] => some []
  | 0, _ :: _ => none
  | fuel + 1, b :: rest =>
    match utf8DecodeOne b rest with
    | none => none
    | some (c, rem) => (utf8DecodeFuel fuel rem).map (c :: ·)

/-- `bytes.decode("utf-8")` with strict error handling: `none` models
`UnicodeDecodeError` (which is a `ValueError` in Python).  Each codepoint
consumes at least one byte, so `l.length` fuel always suffices. -/
def utf8Decode (l : Bytes) : Option PyStr := utf8DecodeFuel l.length l

theorem utf8DecodeFuel_congr :
    ∀ fuel fuel' l, l.length ≤ fuel → l.length ≤ fuel' →
      utf8DecodeFuel fuel l = utf8DecodeFuel fuel' l := by
  intro fuel
  induction fuel with
  | zero =>
      intro fuel' l h _
      match l with
      | [] => cases fuel' <;> rfl
      | b :: rest => simp at h
  | succ f ih =>
      intro fuel' l h h'
      match l with
      | [] => cases fuel' <;> rfl
      | b :: rest =>
        match fuel' with
        | 0 => simp at h'
        | f' + 1 =>
          simp only [utf8DecodeFuel]
          match hone : utf8DecodeOne b rest with
          | none => rfl
          | some (c, rem) =>
            have hr := utf8DecodeOne_length hone
            simp only
            rw [ih f' rem (by simp at h; omega) (by simp at h'; omega)]

theorem utf8EncodeChar_bytes {c : Nat} (h : ValidCodepoint c) :
    ∀ b ∈ utf8EncodeChar c, b < 256 := by
  obtain ⟨h1, _⟩ := h
  unfold utf8EncodeChar
  split
  · intro b hb; simp at hb; omega
  · split
    · intro b hb; simp at hb; rcases hb with hb | hb <;> omega
    · split
      · intro b hb; simp at hb; rcases hb with hb | hb | hb <;> omega
      · intro b hb; simp at hb; rcases hb with hb | hb | hb | hb <;> omega

theorem utf8Encode_bytes {s : PyStr} (h : ∀ c ∈ s, ValidCodepoint c) :
    ValidBytes (utf8Encode s) := by
  induction s with
  | nil => intro b hb; simp [utf8Encode] at hb
  | cons c cs ih =>
      intro b hb
      simp only [utf8Encode, List.cons_bind, List.mem_append] at hb
      rcases hb with hb | hb
      · exact utf8EncodeChar_bytes (h c (by simp)) b hb
      · exact ih (fun x hx => h x (by simp [hx])) b hb

theorem utf8DecodeOne_encodeChar {c : Nat} (h : ValidCodepoint c) (rest : Bytes) :
    ∃ b tail, utf8EncodeChar c ++ rest = b :: tail ∧
      utf8DecodeOne b tail = some (c, rest) := by
  obtain ⟨h1, h2⟩ := h
  rcases Nat.lt_or_ge c 0x80 with hr | hr
  · refine ⟨c, rest, ?_, ?_⟩
    · rw [show utf8EncodeChar c = [c] from by unfold utf8EncodeChar; rw [if_pos hr]]
      rfl
    · unfold utf8DecodeOne; rw [if_pos hr]
  · rcases Nat.lt_or_ge c 0x800 with hr2 | hr2
    · refine ⟨0xC0 + c / 64, (0x80 + c % 64) :: rest, ?_, ?_⟩
      · rw [show utf8EncodeChar c = [0xC0 + c / 64, 0x80 + c % 64] from by
          unfold utf8EncodeChar; rw [if_neg (by omega), if_pos hr2]]
        rfl
      · unfold utf8DecodeOne
        rw [if_neg (by omega), if_neg (by omega), if_pos (by omega)]
        have hD : IsCont (0x80 + c % 64) := ⟨by omega, by omega⟩
        have hE : ¬ ((0xC0 + c / 64 - 0xC0) * 64 + (0x80 + c % 64 - 0x80) < 0x80) := by
          omega
        simp only [hD, if_true, if_pos, hE, if_false, if_neg, not_false_iff]
        simp [hD, hE]
        omega
    · rcases Nat.lt_or_ge c 0x10000 with hr3 | hr3
      · refine ⟨0xE0 + c / 4096, (0x80 + c / 64 % 64) :: (0x80 + c % 64) :: rest, ?_, ?_⟩
        · rw [show utf8EncodeChar c = [0xE0 + c / 4096, 0x80 + c / 64 % 64, 0x80 + c % 64]
            from by unfold utf8EncodeChar; rw [if_neg (by omega), if_neg (by omega),
              if_pos hr3]]
          rfl
        · unfold utf8DecodeOne
          rw [if_neg (by omega), if_neg (by omega), if_neg (by omega), if_pos (by omega)]
          have hD : IsCont (0x80 + c / 64 % 64) ∧ IsCont (0x80 + c % 64) :=
            ⟨⟨by omega, by omega⟩, by omega, by omega⟩
          have hE : (0xE0 + c / 4096 - 0xE0) * 4096 + (0x80 + c / 64 % 64 - 0x80) * 64 +
              (0x80 + c % 64 - 0x80) = c := by omega
          simp [hD, hE]
          omega
      · refine ⟨0xF0 + c / 262144,
          (0x80 + c / 4096 % 64) :: (0x80 + c / 64 % 64) :: (0x80 + c % 64) :: rest,
          ?_, ?_⟩
        · rw [show utf8EncodeChar c =
              [0xF0 + c / 262144, 0x80 + c / 4096 % 64, 0x80 + c / 64 % 64, 0x80 + c % 64]
            from by unfold utf8EncodeChar; rw [if_neg (by omega), if_neg (by omega),
              if_neg (by omega)]]
          rfl
        · unfold utf8DecodeOne
          rw [if_neg (by omega), if_neg (by omega), if_neg (by omega), if_neg (by omega),
            if_pos (by omega)]
          have hD : IsCont (0x80 + c / 4096 % 64) ∧ IsCont (0x80 + c / 64 % 64) ∧
              IsCont (0x80 + c % 64) :=
            ⟨⟨by omega, by omega⟩, ⟨by omega, by omega⟩, by omega, by omega⟩
          have hE : (0xF0 + c / 262144 - 0xF0) * 262144 + (0x80 + c / 4096 % 64 - 0x80) *
              4096 + (0x80 + c / 64 % 64 - 0x80) * 64 + (0x80 + c % 64 - 0x80) = c := by
            omega
          simp [hD, hE]
          omega

theorem utf8Decode_cons {b : Nat} {tail : Bytes} {c : Nat} {rem : Bytes}
    (h : utf8DecodeOne b tail = some (c, rem)) :
    utf8Decode (b :: tail) = (utf8Decode rem).map (c :: ·) := by
  have hr := utf8DecodeOne_length h
  unfold utf8Decode
  simp only [List.length_cons, utf8DecodeFuel, h]
  rw [utf8DecodeFuel_congr tail.length rem.length rem (by omega) (by omega)]

theorem utf8Decode_encodeChar_append {c : Nat} (h : ValidCodepoint c) (rest : Bytes) :
    utf8Decode (utf8EncodeChar c ++ rest) = (utf8Decode rest).map (c :: ·) := by
  obtain ⟨b, tail, heq, hdec⟩ := utf8DecodeOne_encodeChar h rest
  rw [heq, utf8Decode_cons hdec]

theorem utf8Decode_utf8Encode {s : PyStr} (h : ∀ c ∈ s, ValidCodepoint c) :
    utf8Decode (utf8Encode s) = some s := by
  induction s with
  | nil => rfl
  | cons c cs ih =>
      have : utf8Encode (c :: cs) = utf8EncodeChar c ++ utf8Encode cs := by
        simp [utf8Encode]
      rw [this, utf8Decode_encodeChar_append (h c (by simp)),
        ih (fun x hx => h x (by simp [hx]))]
      rfl

/-! ## AEAD interface

`core/crypto_oauth.py` calls the external `cryptography` library's `AESGCM`
class.  That primitive is not repository code; it is modelled here as an
abstract authenticated cipher carrying the contract AES-256-GCM documents:
ciphertext is plaintext length plus the 16-byte tag, decryption inverts
encryption under the same key and nonce, and decryption succeeds only on
the authentic ciphertext for the returned plaintext. -/

/-- Abstract AEAD primitive (`AESGCM.encrypt` / `AESGCM.decrypt` with empty
associated data). -/
structure AEAD where
  enc : Bytes → Bytes → Bytes → Bytes
  dec : Bytes → Bytes → Bytes → Option Bytes
  enc_length : ∀ k n p, (enc k n p).length = p.length + 16
  enc_bytes : ∀ k n p, ValidBytes p → ValidBytes (enc k n p)
  dec_enc : ∀ k n p, dec k n (enc k n p) = some p
  dec_auth : ∀ k n c p, dec k n c = some p → c = enc k n p

/-! ## `core/crypto_oauth.py` — `OAuthTokenEncryption` -/

/-- The `"v1:"` version marker as codepoints (`VERSION_PREFIX`). -/
def vMarker : PyStr := [118, 49, 58]

/-- `NONCE_LENGTH`. -/
def NONCE_LENGTH : Nat := 12

/-- `KEY_LENGTH`. -/
def KEY_LENGTH : Nat := 32

/-- Key validation from `OAuthTokenEncryption.__init__`: base64-decode the
key string and require exactly `KEY_LENGTH` bytes; `none` models the
`ValueError` raised otherwise. -/
def keyBytesOfConfig (encryption_key : PyStr) : Option Bytes :=
  match b64Decode encryption_key with
  | none => none
  | some kb => if kb.length = KEY_LENGTH then some kb else none

/-- `OAuthTokenEncryption.encrypt` on a configured instance: seal the UTF-8
encoding of the plaintext under a fresh nonce (passed explicitly here in
place of `os.urandom(12)`) and emit `"v1:" + base64(nonce ++ ciphertext)`. -/
def encrypt (aead : AEAD) (key nonce : Bytes) (plaintext : PyStr) : PyStr :=
  vMarker ++ b64Encode (nonce ++ aead.enc key nonce (utf8Encode plaintext))

/-- The Python exception classes `decrypt` can raise: `ValueError` (which
includes `UnicodeDecodeError`) and `cryptography`'s `InvalidTag`. -/
inductive DecryptError
  | valueError
  | invalidTag
  deriving DecidableEq, Repr

instance {ε α : Type} [DecidableEq ε] [DecidableEq α] : DecidableEq (Except ε α) :=
  fun a b =>
    match a, b with
    | .error e, .error e' =>
        if h : e = e' then isTrue (by rw [h])
        else isFalse (by intro hc; cases hc; exact h rfl)
    | .ok x, .ok y =>
        if h : x = y then isTrue (by rw [h])
        else isFalse (by intro hc; cases hc; exact h rfl)
    | .error _, .ok _ => isFalse (by intro h; cases h)
    | .ok _, .error _ => isFalse (by intro h; cases h)

/-- `OAuthTokenEncryption.decrypt` on a configured instance: check the
`"v1:"` marker, base64-decode, require strictly more than `NONCE_LENGTH`
bytes, split nonce and ciphertext, authenticate and decrypt, then decode
the plaintext bytes as UTF-8. -/
def decrypt (aead : AEAD) (key : Bytes) (encrypted : PyStr) :
    Except DecryptError PyStr :=
  if encrypted.take 3 = vMarker then
    match b64Decode (encrypted.drop 3) with
    | none => .error .valueError
    | some combined =>
      if combined.length < NONCE_LENGTH + 1 then .error .valueError
      else
        match aead.dec key (combined.take NONCE_LENGTH) (combined.drop NONCE_LENGTH) with
        | none => .error .invalidTag
        | some plaintext_bytes =>
          match utf8Decode plaintext_bytes with
          | none => .error .valueError
          | some s => .ok s
  else .error .valueError

theorem encrypt_take (aead : AEAD) (key nonce : Bytes) (s : PyStr) :
    (encrypt aead key nonce s).take 3 = vMarker := by
  unfold encrypt
  exact List.take_left' rfl

theorem encrypt_drop (aead : AEAD) (key nonce : Bytes) (s : PyStr) :
    (encrypt aead key nonce s).drop 3 =
      b64Encode (nonce ++ aead.enc key nonce (utf8Encode s)) := by
  unfold encrypt
  exact List.drop_left' rfl

/-- An executable instance of the AEAD interface, used to evaluate the
envelope layer on concrete inputs: it appends a 16-byte checksum tag over
key, nonce and plaintext and checks it on decryption. -/
def modelAEAD : AEAD where
  enc k n p := p ++ List.replicate 16 ((k.sum + n.sum + p.sum) % 256)
  dec k n c :=
    if 16 ≤ c.length then
      if c = c.take (c.length - 16) ++
          List.replicate 16 ((k.sum + n.sum + (c.take (c.length - 16)).sum) % 256) then
        some (c.take (c.length - 16))
      else none
    else none
  enc_length := by intro k n p; simp
  enc_bytes := by
    intro k n p hp b hb
    simp only [List.mem_append, List.mem_replicate] at hb
    rcases hb with hb | hb
    · exact hp b hb
    · omega
  dec_enc := by
    intro k n p
    have htake : (p ++ List.replicate 16 ((k.sum + n.sum + p.sum) % 256)).take
        ((p ++ List.replicate 16 ((k.sum + n.sum + p.sum) % 256)).length - 16) = p := by
      have hl : (p ++ List.replicate 16 ((k.sum + n.sum + p.sum) % 256)).length - 16 =
          p.length := by simp
      rw [hl]
      exact List.take_left _ _
    simp only
    rw [if_pos (show 16 ≤ (p ++ List.replicate 16 ((k.sum + n.sum + p.sum) % 256)).length
      from by simp)]
    rw [htake, if_pos rfl]
  dec_auth := by
    intro k n c p h
    simp only at h
    split at h
    · split at h
      · rename_i hc
        simp only [Option.some.injEq] at h
        subst h
        exact hc
      · exact absurd h (by simp)
    · exact absurd h (by simp)

/-- Claim C5: for every plaintext string `s` (any list of valid codepoints,
including the empty string and large payloads) and every key whose base64
decoding is exactly 32 bytes, decrypting the envelope produced by `encrypt`
under the same key returns `s` exactly, for any 12-byte nonce and any AEAD
satisfying the AES-GCM contract. -/
theorem encrypt_decrypt_roundtrip (aead : AEAD) (keyStr keyB : Bytes)
    (hkey : keyBytesOfConfig keyStr = some keyB)
    (s : PyStr) (hs : ∀ c ∈ s, ValidCodepoint c)
    (nonce : Bytes) (hn : nonce.length = 12) (hnb : ValidBytes nonce) :
    decrypt aead keyB (encrypt aead keyB nonce s) = .ok s := by
  have hct : ValidBytes (aead.enc keyB nonce (utf8Encode s)) :=
    aead.enc_bytes _ _ _ (utf8Encode_bytes hs)
  have hcomb : ValidBytes (nonce ++ aead.enc keyB nonce (utf8Encode s)) := by
    intro b hb
    rcases List.mem_append.mp hb with hb | hb
    · exact hnb b hb
    · exact hct b hb
  have hclen : (nonce ++ aead.enc keyB nonce (utf8Encode s)).length =
      12 + ((utf8Encode s).length + 16) := by
    simp [hn, aead.enc_length]
  have htake : (nonce ++ aead.enc keyB nonce (utf8Encode s)).take 12 = nonce :=
    List.take_left' hn
  have hdrop : (nonce ++ aead.enc keyB nonce (utf8Encode s)).drop 12 =
      aead.enc keyB nonce (utf8Encode s) :=
    List.drop_left' hn
  unfold decrypt
  rw [encrypt_take, encrypt_drop, if_pos rfl, b64Decode_b64Encode hcomb]
  simp only [NONCE_LENGTH, htake, hdrop, aead.dec_enc, utf8Decode_utf8Encode hs]
  rw [if_neg (by rw [hclen]; omega)]

/-- A concrete 32-byte key (all zeros), base64-encoded. -/
def keyStrW : PyStr := b64Encode (List.replicate 32 0)

/-- Witness for C5: the round-trip theorem applied at a concrete key,
nonce and plaintext. -/
theorem encrypt_decrypt_roundtrip_witness :
    keyBytesOfConfig keyStrW = some (List.replicate 32 0) ∧
    decrypt modelAEAD (List.replicate 32 0)
      (encrypt modelAEAD (List.replicate 32 0) (List.replicate 12 0) [111, 107]) =
      .ok [111, 107] := by
  refine ⟨by decide, ?_⟩
  exact encrypt_decrypt_roundtrip modelAEAD keyStrW (List.replicate 32 0) (by decide)
    [111, 107] (by decide) (List.replicate 12 0) (by decide) (by decide)

/-- Claim C6 (amended): for a configured cipher, `decrypt` raises
`InvalidTag` exactly when the envelope is well formed (marker, base64,
length above the nonce length) but the AEAD rejects the ciphertext; it
raises `ValueError` when the marker is missing, the base64 is invalid, the
decoded payload has at most `NONCE_LENGTH` bytes, or — the case the
original claim omits — the ciphertext authenticates but the recovered
plaintext bytes are not valid UTF-8 (`UnicodeDecodeError`, a `ValueError`);
and a successful decryption only ever returns the decoding of the exact
plaintext whose authentic encryption the envelope carries. -/
theorem decrypt_eq_noMarker {aead : AEAD} {key : Bytes} {encrypted : PyStr}
    (hpre : encrypted.take 3 ≠ vMarker) :
    decrypt aead key encrypted = .error .valueError := by
  unfold decrypt
  rw [if_neg hpre]

theorem decrypt_eq_badB64 {aead : AEAD} {key : Bytes} {encrypted : PyStr}
    (hpre : encrypted.take 3 = vMarker)
    (hb : b64Decode (encrypted.drop 3) = none) :
    decrypt aead key encrypted = .error .valueError := by
  unfold decrypt
  rw [if_pos hpre, hb]

theorem decrypt_eq_short {aead : AEAD} {key : Bytes} {encrypted : PyStr}
    {combined : Bytes} (hpre : encrypted.take 3 = vMarker)
    (hb : b64Decode (encrypted.drop 3) = some combined)
    (hlen : combined.length < NONCE_LENGTH + 1) :
    decrypt aead key encrypted = .error .valueError := by
  unfold decrypt
  rw [if_pos hpre, hb]
  dsimp only
  rw [if_pos hlen]

theorem decrypt_eq_badTag {aead : AEAD} {key : Bytes} {encrypted : PyStr}
    {combined : Bytes} (hpre : encrypted.take 3 = vMarker)
    (hb : b64Decode (encrypted.drop 3) = some combined)
    (hlen : ¬ combined.length < NONCE_LENGTH + 1)
    (hdec : aead.dec key (combined.take NONCE_LENGTH) (combined.drop NONCE_LENGTH) =
      none) :
    decrypt aead key encrypted = .error .invalidTag := by
  unfold decrypt
  rw [if_pos hpre, hb]
  dsimp only
  rw [if_neg hlen, hdec]

theorem decrypt_eq_badUtf8 {aead : AEAD} {key : Bytes} {encrypted : PyStr}
    {combined p : Bytes} (hpre : encrypted.take 3 = vMarker)
    (hb : b64Decode (encrypted.drop 3) = some combined)
    (hlen : ¬ combined.length < NONCE_LENGTH + 1)
    (hdec : aead.dec key (combined.take NONCE_LENGTH) (combined.drop NONCE_LENGTH) =
      some p)
    (hu : utf8Decode p = none) :
    decrypt aead key encrypted = .error .valueError := by
  unfold decrypt
  rw [if_pos hpre, hb]
  dsimp only
  rw [if_neg hlen, hdec]
  dsimp only
  rw [hu]

theorem decrypt_eq_ok {aead : AEAD} {key : Bytes} {encrypted : PyStr}
    {combined p : Bytes} {s : PyStr} (hpre : encrypted.take 3 = vMarker)
    (hb : b64Decode (encrypted.drop 3) = some combined)
    (hlen : ¬ combined.length < NONCE_LENGTH + 1)
    (hdec : aead.dec key (combined.take NONCE_LENGTH) (combined.drop NONCE_LENGTH) =
      some p)
    (hu : utf8Decode p = some s) :
    decrypt aead key encrypted = .ok s := by
  unfold decrypt
  rw [if_pos hpre, hb]
  dsimp only
  rw [if_neg hlen, hdec]
  dsimp only
  rw [hu]

theorem decrypt_error_classification (aead : AEAD) (key : Bytes) (encrypted : PyStr) :
    (decrypt aead key encrypted = .error .invalidTag ↔
      encrypted.take 3 = vMarker ∧
      ∃ combined, b64Decode (encrypted.drop 3) = some combined ∧
        NONCE_LENGTH < combined.length ∧
        aead.dec key (combined.take NONCE_LENGTH) (combined.drop NONCE_LENGTH) = none) ∧
    (decrypt aead key encrypted = .error .valueError ↔
      encrypted.take 3 ≠ vMarker ∨
      b64Decode (encrypted.drop 3) = none ∨
      (∃ combined, b64Decode (encrypted.drop 3) = some combined ∧
        (combined.length ≤ NONCE_LENGTH ∨
         ∃ p, aead.dec key (combined.take NONCE_LENGTH) (combined.drop NONCE_LENGTH) =
             some p ∧ utf8Decode p = none))) ∧
    (∀ s, decrypt aead key encrypted = .ok s →
      ∃ nonce p, nonce.length = NONCE_LENGTH ∧
        b64Decode (encrypted.drop 3) = some (nonce ++ aead.enc key nonce p) ∧
        utf8Decode p = some s) := by
  by_cases hpre : encrypted.take 3 = vMarker
  · obtain hb | ⟨combined, hb⟩ := Option.eq_none_or_eq_some (b64Decode (encrypted.drop 3))
    · rw [decrypt_eq_badB64 hpre hb]
      refine ⟨?_, ?_, ?_⟩
      · refine iff_of_false (by simp) ?_
        rintro ⟨-, c', hc', -, -⟩
        rw [hb] at hc'
        exact absurd hc' (by simp)
      · exact iff_of_true rfl (Or.inr (Or.inl hb))
      · intro s hs
        simp at hs
    · by_cases hlen : combined.length < NONCE_LENGTH + 1
      · rw [decrypt_eq_short hpre hb hlen]
        refine ⟨?_, ?_, ?_⟩
        · refine iff_of_false (by simp) ?_
          rintro ⟨-, c', hc', hgt, -⟩
          rw [hb] at hc'
          obtain rfl : combined = c' := by simpa using hc'
          omega
        · exact iff_of_true rfl
            (Or.inr (Or.inr ⟨combined, hb, Or.inl (by omega)⟩))
        · intro s hs
          simp at hs
      · obtain hdec | ⟨p, hdec⟩ := Option.eq_none_or_eq_some
          (aead.dec key (combined.take NONCE_LENGTH) (combined.drop NONCE_LENGTH))
        · rw [decrypt_eq_badTag hpre hb hlen hdec]
          refine ⟨?_, ?_, ?_⟩
          · exact iff_of_true rfl ⟨hpre, combined, hb, by omega, hdec⟩
          · refine iff_of_false (by simp) ?_
            rintro (h | h | ⟨c', hc', h⟩)
            · exact absurd hpre h
            · rw [hb] at h
              exact absurd h (by simp)
            · rw [hb] at hc'
              obtain rfl : combined = c' := by simpa using hc'
              rcases h with h | ⟨p, hp, -⟩
              · omega
              · rw [hdec] at hp
                exact absurd hp (by simp)
          · intro s hs
            simp at hs
        · obtain hu | ⟨s0, hu⟩ := Option.eq_none_or_eq_some (utf8Decode p)
          · rw [decrypt_eq_badUtf8 hpre hb hlen hdec hu]
            refine ⟨?_, ?_, ?_⟩
            · refine iff_of_false (by simp) ?_
              rintro ⟨-, c', hc', -, hd⟩
              rw [hb] at hc'
              obtain rfl : combined = c' := by simpa using hc'
              rw [hdec] at hd
              exact absurd hd (by simp)
            · exact iff_of_true rfl
                (Or.inr (Or.inr ⟨combined, hb, Or.inr ⟨p, hdec, hu⟩⟩))
            · intro s hs
              simp at hs
          · rw [decrypt_eq_ok hpre hb hlen hdec hu]
            refine ⟨?_, ?_, ?_⟩
            · refine iff_of_false (by simp) ?_
              rintro ⟨-, c', hc', -, hd⟩
              rw [hb] at hc'
              obtain rfl : combined = c' := by simpa using hc'
              rw [hdec] at hd
              exact absurd hd (by simp)
            · refine iff_of_false (by simp) ?_
              rintro (h | h | ⟨c', hc', h⟩)
              · exact absurd hpre h
              · rw [hb] at h
                exact absurd h (by simp)
              · rw [hb] at hc'
                obtain rfl : combined = c' := by simpa using hc'
                rcases h with h | ⟨p', hp', hu'⟩
                · omega
                · rw [hdec] at hp'
                  obtain rfl : p = p' := by simpa using hp'
                  rw [hu] at hu'
                  exact absurd hu' (by simp)
            · intro s hs
              obtain rfl : s0 = s := by simpa using hs
              have hauth := aead.dec_auth _ _ _ _ hdec
              refine ⟨combined.take NONCE_LENGTH, p, ?_, ?_, hu⟩
              · simp [List.length_take]
                omega
              · rw [← hauth, List.take_append_drop]
                exact hb
  · rw [decrypt_eq_noMarker hpre]
    refine ⟨?_, ?_, ?_⟩
    · refine iff_of_false (by simp) ?_
      rintro ⟨h, -⟩
      exact absurd h hpre
    · exact iff_of_true rfl (Or.inl hpre)
    · intro s hs
      simp at hs

/-- A raw byte that is not valid UTF-8, sealed under `modelAEAD`: the body
of a counterexample envelope. -/
def badBytesEnvelope : PyStr :=
  vMarker ++ b64Encode (List.replicate 12 0 ++
    modelAEAD.enc (List.replicate 32 0) (List.replicate 12 0) [255])

/-- Counterexample to claim C6 as stated: `badBytesEnvelope` carries the
`"v1:"` marker, is valid base64, and decodes to 29 bytes (more than the
nonce length), yet `decrypt` raises a `ValueError` (the `UnicodeDecodeError`
from `plaintext_bytes.decode("utf-8")`) rather than only in the three
format conditions the claim lists. -/
theorem decrypt_valueError_beyond_format :
    decrypt modelAEAD (List.replicate 32 0) badBytesEnvelope = .error .valueError ∧
    badBytesEnvelope.take 3 = vMarker ∧
    b64Decode (badBytesEnvelope.drop 3) =
      some (List.replicate 12 0 ++
        modelAEAD.enc (List.replicate 32 0) (List.replicate 12 0) [255]) ∧
    (List.replicate 12 0 ++
        modelAEAD.enc (List.replicate 32 0) (List.replicate 12 0) [255]).length = 29 := by
  refine ⟨by decide, by decide, by decide, by decide⟩

/-- Witness for C6: the classification applied to the concrete envelope
`badBytesEnvelope`, extracting the `ValueError` characterization. -/
theorem decrypt_error_classification_witness :
    decrypt modelAEAD (List.replicate 32 0) badBytesEnvelope = .error .valueError :=
  ((decrypt_error_classification modelAEAD (List.replicate 32 0)
      badBytesEnvelope).2.1).mpr
    (Or.inr (Or.inr ⟨List.replicate 12 0 ++
        modelAEAD.enc (List.replicate 32 0) (List.replicate 12 0) [255],
      by decide, Or.inr ⟨[255], by decide, by decide⟩⟩))

/-! ## `core/oauth_state.py` — signed OAuth state tokens

The JWT transport (`jose.jwt.encode` / `jose.jwt.decode`) is an external
library.  A signed token is modelled as its payload together with the key
it was signed with; `joseDecode` models `jwt.decode`'s documented contract:
the signature is verified first (`JWTError` with message
"Signature verification failed." on mismatch), then the `exp` claim
(`ExpiredSignatureError` with message "Signature has expired."). -/

/-- The decoded JWT claim set of an OAuth state token.  `typ` is the
`"type"` claim; every claim a hand-crafted payload could omit is an
`Option`. -/
structure StatePayload where
  typ : Option String
  provider : Option String
  redirect_uri : Option String
  mode : Option String
  cc : Option String
  link_user_id : Option String
  nonce : String
  iat : Nat
  exp : Nat
  deriving DecidableEq, Repr

/-- A signed JWT: its payload and the signing key it carries a MAC under. -/
structure SignedState where
  payload : StatePayload
  key : String
  deriving DecidableEq, Repr

/-- Python truthiness of an optional string: `None` and `""` are falsy. -/
def optTruthy : Option String → Bool
  | none => false
  | some s => !(s == "")

/-- Modelled from the `jose` library's documented behavior: the two error
classes `jwt.decode` raises here, with whether `"expired"` occurs in
`str(e).lower()` (`"Signature has expired."` vs
`"Signature verification failed."`). -/
inductive JoseError
  | expiredSignature
  | invalidSignature
  deriving DecidableEq, Repr

/-- Whether `"expired" in str(e).lower()` for the raised error. -/
def joseErrorMentionsExpired : JoseError → Bool
  | .expiredSignature => true
  | .invalidSignature => false

/-- Modelled from the `jose` library's documented contract for
`jwt.decode(state, signing_key, algorithms=[...])`: signature first, then
the standard `exp` claim with zero leeway. -/
def joseDecode (tok : SignedState) (key : String) (now : Nat) :
    Except JoseError StatePayload :=
  if tok.key ≠ key then .error .invalidSignature
  else if tok.payload.exp < now then .error .expiredSignature
  else .ok tok.payload

/-- The `OAuthStateError` hierarchy of `core/oauth_state.py`. -/
inductive OAuthStateErr
  | expired
  | invalid (msg : String)
  | missingField (msg : String)
  deriving DecidableEq, Repr

/-- `sign_state`: validate the arguments, then build the claim set.  The
random `nonce` and the clock `now` are explicit parameters; the result
carries the signing key (`jwt.encode`). -/
def sign_state (provider redirect_uri mode signing_key : String)
    (code_challenge link_user_id : Option String)
    (expiry_seconds : Nat) (nonce : String) (now : Nat) :
    Except String SignedState :=
  if provider = "" then .error "provider is required"
  else if redirect_uri = "" then .error "redirect_uri is required"
  else if mode ≠ "login" ∧ mode ≠ "link" then .error "mode must be 'login' or 'link'"
  else if mode = "link" ∧ ¬ optTruthy link_user_id then
    .error "link_user_id is required when mode='link'"
  else .ok
    { payload :=
        { typ := some "oauth_state"
          provider := some provider
          redirect_uri := some redirect_uri
          mode := some mode
          cc := if optTruthy code_challenge then code_challenge else none
          link_user_id := if optTruthy link_user_id then link_user_id else none
          nonce := nonce
          iat := now
          exp := now + expiry_seconds }
      key := signing_key }

/-- The post-decode section of `verify_state`: type discriminator, required
fields, mode validity, link-mode `link_user_id`, then the optional
expected-value comparisons, in source order. -/
def verifyPayloadChecks (payload : StatePayload)
    (expected_provider expected_redirect_uri expected_mode : Option String) :
    Except OAuthStateErr StatePayload :=
  if payload.typ ≠ some "oauth_state" then .error (.invalid "Invalid state token type")
  else if payload.provider = none then
    .error (.missingField "State missing required field: provider")
  else if payload.redirect_uri = none then
    .error (.missingField "State missing required field: redirect_uri")
  else if payload.mode = none then
    .error (.missingField "State missing required field: mode")
  else if payload.mode ≠ some "login" ∧ payload.mode ≠ some "link" then
    .error (.invalid "Invalid mode in state")
  else if payload.mode = some "link" ∧ ¬ optTruthy payload.link_user_id then
    .error (.missingField "State missing link_user_id for link mode")
  else if optTruthy expected_provider ∧ payload.provider ≠ expected_provider then
    .error (.invalid "State provider mismatch")
  else if optTruthy expected_redirect_uri ∧ payload.redirect_uri ≠ expected_redirect_uri
    then .error (.invalid "State redirect_uri mismatch")
  else if optTruthy expected_mode ∧ payload.mode ≠ expected_mode then
    .error (.invalid "State mode mismatch")
  else .ok payload

/-- `verify_state`: decode (signature, then expiry: an error whose message
mentions "expired" becomes `OAuthStateExpiredError`, every other decode
failure the generic `OAuthStateInvalidError`), then the payload checks. -/
def verify_state (state : SignedState) (signing_key : String)
    (expected_provider expected_redirect_uri expected_mode : Option String)
    (now : Nat) : Except OAuthStateErr StatePayload :=
  match joseDecode state signing_key now with
  | .error e =>
      if joseErrorMentionsExpired e then .error .expired
      else .error (.invalid "Invalid OAuth state token")
  | .ok payload => verifyPayloadChecks payload expected_provider expected_redirect_uri
      expected_mode

/-- `verify_state_for_callback`: provider and redirect URI expected, no
expected mode. -/
def verify_state_for_callback (state : SignedState) (signing_key : String)
    (expected_provider expected_redirect_uri : String) (now : Nat) :
    Except OAuthStateErr StatePayload :=
  verify_state state signing_key (some expected_provider) (some expected_redirect_uri)
    none now

theorem verifyPayloadChecks_ne_expired (payload : StatePayload)
    (ep er em : Option String) :
    verifyPayloadChecks payload ep er em ≠ .error .expired := by
  unfold verifyPayloadChecks
  split_ifs <;> simp

/-- Claim C7: `verify_state` returns the distinct `ExpiredError` exactly
when the token's signature is valid (it was signed with the verification
key) but its expiry has passed; and every validly-signed, unexpired token
whose payload lacks `type = "oauth_state"` is rejected with the generic
`InvalidError`. -/
theorem verify_state_expired_iff (tok : SignedState) (signing_key : String)
    (ep er em : Option String) (now : Nat) :
    (verify_state tok signing_key ep er em now = .error .expired ↔
      tok.key = signing_key ∧ tok.payload.exp < now) ∧
    (tok.key = signing_key → ¬ tok.payload.exp < now →
      tok.payload.typ ≠ some "oauth_state" →
      verify_state tok signing_key ep er em now =
        .error (.invalid "Invalid state token type")) := by
  constructor
  · unfold verify_state joseDecode
    by_cases hk : tok.key = signing_key
    · by_cases he : tok.payload.exp < now
      · rw [if_neg (by simp [hk]), if_pos he]
        simp [joseErrorMentionsExpired, hk, he]
      · rw [if_neg (by simp [hk]), if_neg he]
        simp only
        constructor
        · intro h
          exact absurd h (verifyPayloadChecks_ne_expired _ _ _ _)
        · intro h
          exact absurd he (by simp [h.2])
    · rw [if_pos (by simp [hk])]
      simp [joseErrorMentionsExpired, hk]
  · intro hk he ht
    unfold verify_state joseDecode
    rw [if_neg (by simp [hk]), if_neg he]
    simp only
    unfold verifyPayloadChecks
    rw [if_pos ht]

/-- Witness for C7: a concrete token signed with the right key whose expiry
has passed is rejected as expired, and a concrete validly-signed unexpired
token without the type discriminator is rejected as invalid. -/
theorem verify_state_expired_iff_witness :
    verify_state
      ⟨⟨some "oauth_state", some "google", some "https://app/cb", some "login", none,
        none, "n", 0, 5⟩, "k"⟩ "k" none none none 10 = .error .expired ∧
    verify_state
      ⟨⟨none, some "google", some "https://app/cb", some "login", none,
        none, "n", 0, 50⟩, "k"⟩ "k" none none none 10 =
      .error (.invalid "Invalid state token type") :=
  ⟨(verify_state_expired_iff _ "k" none none none 10).1.mpr ⟨rfl, by decide⟩,
   (verify_state_expired_iff _ "k" none none none 10).2 rfl (by decide) (by decide)⟩

/-- Counterexample to claim C8 as stated: `sign_state` called in login mode
with a non-empty `link_user_id` succeeds and embeds `link_user_id` in the
signed payload (`if link_user_id:` adds the claim regardless of mode), so
"link_user_id is present iff mode = link in every signed state" fails. -/
theorem sign_state_login_embeds_link_user_id :
    sign_state "google" "https://app/cb" "login" "key" none (some "user-1") 600 "n" 0 =
      .ok ⟨⟨some "oauth_state", some "google", some "https://app/cb", some "login",
        none, some "user-1", "n", 0, 600⟩, "key"⟩ := by
  decide

/-- Claim C8 (amended): `sign_state` raises `ValueError` exactly when
`provider` is empty, `redirect_uri` is empty, `mode` is neither `"login"`
nor `"link"`, or `mode = "link"` with `link_user_id` absent or empty — so
`link_user_id` is present in every link-mode signed state (in login mode it
is embedded whenever a non-empty `link_user_id` argument is supplied); and
`verify_state` rejects with `MissingFieldError` every payload whose mode is
`"link"` but which lacks a truthy `link_user_id`, even when the signature
is valid. -/
theorem sign_state_link_user_id_contract (provider redirect_uri mode signing_key : String)
    (cc luid : Option String) (exp_s : Nat) (nonce : String) (now : Nat) :
    ((∃ msg, sign_state provider redirect_uri mode signing_key cc luid exp_s nonce now =
        .error msg) ↔
      provider = "" ∨ redirect_uri = "" ∨ (mode ≠ "login" ∧ mode ≠ "link") ∨
        (mode = "link" ∧ ¬ optTruthy luid)) ∧
    (∀ tok, sign_state provider redirect_uri mode signing_key cc luid exp_s nonce now =
        .ok tok → tok.payload.mode = some "link" → optTruthy tok.payload.link_user_id) ∧
    (∀ tok : SignedState, tok.key = signing_key → ¬ tok.payload.exp < now →
      tok.payload.typ = some "oauth_state" →
      tok.payload.provider ≠ none → tok.payload.redirect_uri ≠ none →
      tok.payload.mode = some "link" → ¬ optTruthy tok.payload.link_user_id →
      verify_state tok signing_key none none none now =
        .error (.missingField "State missing link_user_id for link mode")) := by
  refine ⟨?_, ?_, ?_⟩
  · unfold sign_state
    split_ifs with h1 h2 h3 h4
    · simp [h1]
    · simp [h1, h2]
    · simp [h1, h2, h3]
    · simp [h1, h2, h3, h4]
    · refine iff_of_false (by simp) ?_
      rintro (h | h | h | h) <;> tauto
  · intro tok hok hmode
    unfold sign_state at hok
    by_cases h1 : provider = ""
    · rw [if_pos h1] at hok
      exact absurd hok (by simp)
    rw [if_neg h1] at hok
    by_cases h2 : redirect_uri = ""
    · rw [if_pos h2] at hok
      exact absurd hok (by simp)
    rw [if_neg h2] at hok
    by_cases h3 : mode ≠ "login" ∧ mode ≠ "link"
    · rw [if_pos h3] at hok
      exact absurd hok (by simp)
    rw [if_neg h3] at hok
    by_cases h4 : mode = "link" ∧ ¬ optTruthy luid
    · rw [if_pos h4] at hok
      exact absurd hok (by simp)
    rw [if_neg h4] at hok
    have htok : tok = _ := (by simpa using hok.symm)
    subst htok
    simp only at hmode ⊢
    have hm : mode = "link" := by simpa using hmode
    have hluid : optTruthy luid := by
      by_contra hc
      exact h4 ⟨hm, hc⟩
    rw [if_pos hluid]
    exact hluid
  · intro tok hk he ht hp hr hmode hluid
    unfold verify_state joseDecode
    rw [if_neg (by simp [hk]), if_neg he]
    simp only
    unfold verifyPayloadChecks
    rw [if_neg (by simp [ht]), if_neg hp, if_neg hr,
      if_neg (by simp [hmode]), if_neg (by simp [hmode]),
      if_pos ⟨hmode, hluid⟩]

/-- Witness for C8: the contract applied at concrete inputs — signing in
link mode without `link_user_id` fails, and a hand-crafted link-mode
payload lacking `link_user_id` is rejected by `verify_state` with the
missing-field error. -/
theorem sign_state_link_user_id_contract_witness :
    (∃ msg, sign_state "google" "https://app/cb" "link" "key" none none 600 "n" 0 =
      .error msg) ∧
    verify_state
      ⟨⟨some "oauth_state", some "google", some "https://app/cb", some "link", none,
        none, "n", 0, 50⟩, "k"⟩ "k" none none none 10 =
      .error (.missingField "State missing link_user_id for link mode") :=
  ⟨(sign_state_link_user_id_contract "google" "https://app/cb" "link" "key" none none
      600 "n" 0).1.mpr (Or.inr (Or.inr (Or.inr ⟨rfl, by decide⟩))),
   (sign_state_link_user_id_contract "google" "https://app/cb" "link" "k" none none
      600 "n" 10).2.2 _ rfl (by decide) (by decide) (by decide) (by decide) (by decide)
      (by decide)⟩

/-! ## `services/oauth/providers/base.py` — transient data carriers -/

/-- The `OAuthProfile` dataclass, field for field.  Note: the source
dataclass has **no** `email_verified` field (see the claim C2 analysis
below); this structure mirrors it exactly. -/
structure OAuthProfile where
  provider : String
  provider_user_id : String
  email : Option String
  username : Option String
  id_token : Option String
  deriving DecidableEq, Repr

/-- The `OAuthTokens` dataclass. -/
structure OAuthTokens where
  access_token : String
  token_type : String
  refresh_token : Option String
  id_token : Option String
  scope : Option String
  expires_in : Option Nat
  expires_at : Option Nat
  deriving DecidableEq, Repr

/-! ## Relational store model

`models/social_account.py` is under src/; the `User` model and the passkey
`UserCredential` model are repository code not under src/ (only the spec
and this API's reads reference them), so their rows are modelled from the
spec: the spec's `User` exposes `id`, `email`, `is_active`,
`has_usable_password` and a 2FA flag, and passkeys only ever appear here as
a per-user count. -/

/-- Modelled from the spec: the `User` external-collaborator entity
(`models/user.py` is not under src/), with the attributes the OAuth
endpoints read and write. -/
structure UserRow where
  id : Nat
  email : String
  first_name : Option String
  is_active : Bool
  is_verified : Bool
  has_usable_password : Bool
  hashed_password : String
  two_factor_enabled : Bool
  last_login_at : Option Nat
  deriving DecidableEq, Repr

/-- A `social_accounts` row (`models/social_account.py`).  Identifiers and
timestamps are naturals. -/
structure SocialAccountRow where
  id : Nat
  user_id : Nat
  provider : String
  provider_user_id : String
  provider_email : Option String
  provider_username : Option String
  access_token_enc : Option String
  refresh_token_enc : Option String
  id_token_enc : Option String
  token_type : Option String
  scope : Option String
  expires_at : Option Nat
  created_at : Nat
  updated_at : Nat
  deriving DecidableEq, Repr

/-- Modelled from the spec: a passkey credential row (`UserCredential` in
`models/user.py`, not under src/); only its owner matters here. -/
structure UserCredentialRow where
  user_id : Nat
  deriving DecidableEq, Repr

/-- The relational store: the three tables the OAuth endpoints touch, plus
a counter standing in for fresh primary keys. -/
structure DB where
  users : List UserRow
  socials : List SocialAccountRow
  passkeys : List UserCredentialRow
  nextId : Nat
  deriving DecidableEq, Repr

/-- An event published through `auth_events.emit(name, payload)`. -/
structure Event where
  name : String
  user_id : String
  method : Option String
  provider : String
  deriving DecidableEq, Repr

/-- An HTTP error response (`HTTPException(status_code, detail)`). -/
inductive ApiError
  | http (status : Nat) (detail : String)
  deriving DecidableEq, Repr

/-! ## `api/oauth.py` — PKCE binding -/

/-- `str.encode("ascii")`: `none` models `UnicodeEncodeError`. -/
def pyAsciiEncode (s : String) : Option Bytes :=
  if s.data.all (fun c => c.toNat < 128) then some (s.data.map Char.toNat) else none

/-- Bytes back to a Python string (`bytes.decode("ascii")`). -/
def natsToStr (l : Bytes) : String := ⟨l.map Char.ofNat⟩

/-- `_base64url_sha256` given the digest function `h`, which models
`hashlib.sha256(...).digest()` (an external primitive): url-safe base64 of
the digest with `=` padding stripped. -/
def base64urlSha256 (h : Bytes → Bytes) (value : Bytes) : Bytes :=
  rstripPad (urlsafeB64Encode (h value))

/-- `_verify_pkce_binding`: reject when the verified state carries no
truthy `cc` claim, recompute the challenge from the supplied
`code_verifier`, and reject on mismatch.  A non-ASCII verifier makes
`value.encode("ascii")` raise `UnicodeEncodeError`, which no handler
catches (a 500). -/
def verify_pkce_binding (h : Bytes → Bytes) (state_payload : StatePayload)
    (code_verifier : String) : Except ApiError Unit :=
  match state_payload.cc with
  | none => .error (.http 400 "OAuth state missing code challenge")
  | some expected_challenge =>
    if expected_challenge = "" then
      .error (.http 400 "OAuth state missing code challenge")
    else
      match pyAsciiEncode code_verifier with
      | none => .error (.http 500 "UnicodeEncodeError")
      | some vb =>
        if natsToStr (base64urlSha256 h vb) ≠ expected_challenge then
          .error (.http 400 "PKCE verification failed")
        else .ok ()

/-- Outcome of the `callback` endpoint up to (but excluding) the provider
token exchange. -/
inductive CallbackStage
  | rejected (e : ApiError)
  | proceedToExchange (payload : StatePayload)
  deriving DecidableEq, Repr

/-- `str(e)` for the `OAuthStateError` hierarchy. -/
def oauthStateErrStr : OAuthStateErr → String
  | .expired => "OAuth state has expired"
  | .invalid msg => msg
  | .missingField msg => msg

/-- The `callback` endpoint from state verification to the PKCE gate
(`api/oauth.py` lines 216–248): three-way state error mapping, rejection
of link-mode states (the callback is login only), then
`_verify_pkce_binding`; everything after this point performs the token
exchange. -/
def callback_preExchange (h : Bytes → Bytes) (provider : String) (state : SignedState)
    (redirect_uri code_verifier signing_key : String) (now : Nat) : CallbackStage :=
  match verify_state_for_callback state signing_key provider redirect_uri now with
  | .error .expired =>
      .rejected (.http 400 "OAuth state has expired. Please try again.")
  | .error (.invalid msg) =>
      .rejected (.http 400 ("Invalid OAuth state: " ++ msg))
  | .error (.missingField msg) =>
      .rejected (.http 400 ("OAuth state error: " ++ msg))
  | .ok state_payload =>
    if state_payload.mode = some "link" then
      .rejected (.http 400 "Use /oauth/links/{provider}/link endpoint for account linking")
    else
      match verify_pkce_binding h state_payload code_verifier with
      | .error e => .rejected e
      | .ok _ => .proceedToExchange state_payload

/-! ## `api/oauth.py` — social-account persistence helpers -/

/-- `encrypt_token(t, key) if t else None` for an optional token field. -/
def encIfTruthy (encTok : String → Option String) : Option String → Option String
  | none => none
  | some t => if t = "" then none else encTok t

/-- `_create_social_account`: build the row (tokens encrypted via `encTok`,
the model of `encrypt_token` under the configured key) and insert it; the
store's unique constraints on `(provider, provider_user_id)` and
`(user_id, provider)` make the insert fail with `IntegrityError` (modelled
as `.error ()`) when violated. -/
def create_social_account (db : DB) (user_id : Nat) (provider : String)
    (profile : OAuthProfile) (tokens : OAuthTokens) (encTok : String → Option String)
    (now : Nat) : Except Unit (SocialAccountRow × DB) :=
  let row : SocialAccountRow :=
    { id := db.nextId
      user_id := user_id
      provider := provider
      provider_user_id := profile.provider_user_id
      provider_email := profile.email
      provider_username := profile.username
      access_token_enc := if tokens.access_token = "" then none else
        encTok tokens.access_token
      refresh_token_enc := encIfTruthy encTok tokens.refresh_token
      id_token_enc := encIfTruthy encTok tokens.id_token
      token_type := some tokens.token_type
      scope := tokens.scope
      expires_at := tokens.expires_at
      created_at := now
      updated_at := now }
  if db.socials.any (fun sa =>
      (sa.provider == provider && sa.provider_user_id == profile.provider_user_id) ||
      (sa.user_id == user_id && sa.provider == provider)) then
    .error ()
  else
    .ok (row, { db with socials := db.socials ++ [row], nextId := db.nextId + 1 })

/-- `_update_social_account_tokens`: overwrite each stored field only when
the freshly exchanged token set has a truthy value for it, and stamp
`updated_at` unconditionally. -/
def update_social_account_tokens (sa : SocialAccountRow) (tokens : OAuthTokens)
    (encTok : String → Option String) (now : Nat) : SocialAccountRow :=
  { sa with
    access_token_enc := if tokens.access_token ≠ "" then encTok tokens.access_token
      else sa.access_token_enc
    refresh_token_enc :=
      match tokens.refresh_token with
      | some t => if t ≠ "" then encTok t else sa.refresh_token_enc
      | none => sa.refresh_token_enc
    id_token_enc :=
      match tokens.id_token with
      | some t => if t ≠ "" then encTok t else sa.id_token_enc
      | none => sa.id_token_enc
    token_type := if tokens.token_type ≠ "" then some tokens.token_type else sa.token_type
    scope :=
      match tokens.scope with
      | some t => if t ≠ "" then some t else sa.scope
      | none => sa.scope
    expires_at :=
      match tokens.expires_at with
      | some t => some t
      | none => sa.expires_at
    updated_at := now }

/-- `str.lower()` for provider names (ASCII): the kernel-computable model
of `provider.lower()`. -/
def pyLower (s : String) : String := ⟨s.data.map Char.toLower⟩

/-! ## `api/oauth.py` — unlink endpoint -/

/-- `unlink_account` (`DELETE /oauth/links/{provider}`): 404 when the
caller has no link for the provider; otherwise count the caller's social
accounts, passkeys and usable password, refuse with the 400 lockout error
when nothing would remain, else delete the found row and emit the unlink
event.  Returns the response value, the resulting store and the emitted
events. -/
def unlink_account (db : DB) (current_user : UserRow) (provider : String) :
    Except ApiError String × DB × List Event :=
  let provider := pyLower provider
  match db.socials.find? (fun sa =>
      sa.user_id == current_user.id && sa.provider == provider) with
  | none => (.error (.http 404 ("No " ++ provider ++ " account linked")), db, [])
  | some _ =>
      let social_count :=
        (db.socials.filter (fun sa => sa.user_id == current_user.id)).length
      let passkey_count :=
        (db.passkeys.filter (fun pk => pk.user_id == current_user.id)).length
      let has_password := current_user.has_usable_password
      let remaining_social := social_count - 1
      let remaining_auth_methods :=
        remaining_social + passkey_count + (if has_password then 1 else 0)
      if remaining_auth_methods = 0 then
        (.error (.http 400 ("Cannot unlink last authentication method. " ++
          "Please add a password or another login method first.")), db, [])
      else
        (.ok provider,
         { db with socials := db.socials.eraseP (fun sa =>
             sa.user_id == current_user.id && sa.provider == provider) },
         [⟨"social_account_unlinked", toString current_user.id, none, provider⟩])

/-! ## `api/oauth.py` — link endpoint -/

/-- The keyword values the link endpoint passes to its response schema
(`LinkedAccountInfo(provider=…, provider_user_id=…, provider_email=…,
provider_username=…, linked_at=…)` at lines 546–552); pydantic validation
of that call is treated separately under claim C9. -/
structure LinkedAccountKwargs where
  provider : String
  provider_user_id : String
  provider_email : Option String
  provider_username : Option String
  linked_at : Nat
  deriving DecidableEq, Repr

/-- `link_account` (`POST /oauth/links/{provider}/link`) after provider
validation.  The provider network exchange is the `identity` oracle (its
`.error` is an `OAuthProviderError`).  To express the race the spec calls
out, the existence pre-checks read `dbCheck` while the insert observes
`dbInsert`: a concurrent insert is a `dbInsert` that grew behind the
pre-checks' back; `dbCheck = dbInsert` is the sequential case. -/
def link_account (h : Bytes → Bytes) (dbCheck dbInsert : DB) (current_user : UserRow)
    (provider : String) (state : SignedState)
    (redirect_uri code_verifier signing_key : String) (now : Nat)
    (identity : Except String (OAuthTokens × OAuthProfile))
    (encTok : String → Option String) :
    Except ApiError LinkedAccountKwargs × DB × List Event :=
  match verify_state_for_callback state signing_key provider redirect_uri now with
  | .error e =>
      (.error (.http 400 ("OAuth state error: " ++ oauthStateErrStr e)), dbInsert, [])
  | .ok state_payload =>
    if state_payload.mode ≠ some "link" then
      (.error (.http 400 "State was not created for account linking"), dbInsert, [])
    else if state_payload.link_user_id ≠ some (toString current_user.id) then
      (.error (.http 400 "State was created for a different user"), dbInsert, [])
    else
      match verify_pkce_binding h state_payload code_verifier with
      | .error e => (.error e, dbInsert, [])
      | .ok _ =>
        match dbCheck.socials.find? (fun sa =>
            sa.user_id == current_user.id && sa.provider == provider) with
        | some _ =>
            (.error (.http 400 ("You already have a " ++ provider ++ " account linked")),
             dbInsert, [])
        | none =>
          match identity with
          | .error msg =>
              (.error (.http 400 ("OAuth provider error: " ++ msg)), dbInsert, [])
          | .ok (tokens, profile) =>
            match dbCheck.socials.find? (fun sa =>
                sa.provider == provider &&
                sa.provider_user_id == profile.provider_user_id) with
            | some _ =>
                (.error (.http 409 ("This " ++ provider ++
                  " account is already linked to another user")), dbInsert, [])
            | none =>
              match create_social_account dbInsert current_user.id provider profile
                  tokens encTok now with
              | .error _ =>
                  (.error (.http 409 ("This " ++ provider ++
                    " account is already linked")), dbInsert, [])
              | .ok (social_account, db') =>
                  (.ok { provider := social_account.provider
                         provider_user_id := social_account.provider_user_id
                         provider_email := social_account.provider_email
                         provider_username := social_account.provider_username
                         linked_at := social_account.created_at },
                   db',
                   [⟨"social_account_linked", toString current_user.id, none, provider⟩])

/-! ## `api/oauth.py` — links listing, and constructor-call validity

Claims C2 and C9 are about Python calls that must satisfy the called
class's field list: a dataclass `__init__` raises `TypeError` on an
unexpected keyword or missing required field, reading an undeclared
attribute raises `AttributeError`, and a pydantic `BaseModel` with default
configuration ignores extra keywords but raises `ValidationError` when a
required (default-less) field is absent.  The field lists below are copied
from the source declarations, the keyword lists from the call sites. -/

/-- `get_links` row assembly: one entry per `SocialAccount` owned by the
caller, carrying the keyword values of the `LinkedAccountInfo(...)` call at
`api/oauth.py` lines 421–430. -/
def get_links_accounts (db : DB) (current_user : UserRow) : List LinkedAccountKwargs :=
  (db.socials.filter (fun sa => sa.user_id == current_user.id)).map (fun sa =>
    { provider := sa.provider
      provider_user_id := sa.provider_user_id
      provider_email := sa.provider_email
      provider_username := sa.provider_username
      linked_at := sa.created_at })

/-- Python dataclass construction: accepted iff every keyword is a declared
field and every required field is supplied; otherwise `TypeError`. -/
def pyDataclassCallOk (fields required kwargs : List String) : Bool :=
  kwargs.all (fun k => fields.contains k) && required.all (fun k => kwargs.contains k)

/-- Attribute read on a dataclass instance: defined iff declared
(`AttributeError` otherwise). -/
def pyObjectHasAttr (fields : List String) (attr : String) : Bool :=
  fields.contains attr

/-- pydantic `BaseModel.__init__` under the default config: extra keywords
are ignored, but every required field must be supplied
(`ValidationError` otherwise). -/
def pydanticInitOk (required kwargs : List String) : Bool :=
  required.all (fun k => kwargs.contains k)

/-- The fields of the `OAuthProfile` dataclass
(`services/oauth/providers/base.py` lines 15–36). -/
def oauthProfileFields : List String :=
  ["provider", "provider_user_id", "email", "username", "id_token"]

/-- `OAuthProfile`'s fields without a default value. -/
def oauthProfileRequired : List String := ["provider", "provider_user_id", "email"]

/-- The keywords `GoogleProvider.fetch_profile` passes to `OAuthProfile`
(`google.py` lines 193–200). -/
def googleFetchProfileKwargs : List String :=
  ["provider", "provider_user_id", "email", "username", "email_verified", "id_token"]

/-- The keywords `GitHubProvider.fetch_profile` passes to `OAuthProfile`
(`github.py` lines 216–222). -/
def githubFetchProfileKwargs : List String :=
  ["provider", "provider_user_id", "email", "username", "email_verified"]

/-- The keywords `AppleProvider.fetch_profile` passes to `OAuthProfile`
(`apple.py` lines 251–258). -/
def appleFetchProfileKwargs : List String :=
  ["provider", "provider_user_id", "email", "username", "email_verified", "id_token"]

/-- The required (default-less) fields of the pydantic `LinkedAccountInfo`
schema (`schemas/oauth.py` lines 98–107): `id`, `provider`, `created_at`. -/
def linkedAccountInfoRequired : List String := ["id", "provider", "created_at"]

/-- The keywords `get_links` passes to `LinkedAccountInfo`
(`api/oauth.py` lines 422–428). -/
def getLinksAccountKwargs : List String :=
  ["provider", "provider_user_id", "provider_email", "provider_username", "linked_at"]

/-- The required fields of the pydantic `OAuthLinksResponse` schema
(`schemas/oauth.py` lines 110–115): only `links`. -/
def oauthLinksResponseRequired : List String := ["links"]

/-- The keywords `get_links` passes to `OAuthLinksResponse`
(`api/oauth.py` line 433). -/
def getLinksResponseKwargs : List String := ["accounts", "has_usable_password"]

/-- Claim C2 (code bug): the `OAuthProfile` dataclass has no
`email_verified` field, yet all three providers construct it with an
`email_verified=` keyword — a `TypeError` — and the callback's new-user
branch reads `profile.email_verified` (`api/oauth.py` line 333) — an
`AttributeError`.  The new-social-login scenario therefore crashes before
creating any user, instead of creating the user with `is_verified` derived
from `email_verified`. -/
theorem oauthProfile_email_verified_bug :
    pyDataclassCallOk oauthProfileFields oauthProfileRequired
      googleFetchProfileKwargs = false ∧
    pyDataclassCallOk oauthProfileFields oauthProfileRequired
      githubFetchProfileKwargs = false ∧
    pyDataclassCallOk oauthProfileFields oauthProfileRequired
      appleFetchProfileKwargs = false ∧
    pyObjectHasAttr oauthProfileFields "email_verified" = false ∧
    pyDataclassCallOk oauthProfileFields oauthProfileRequired
      (googleFetchProfileKwargs.filter (fun k => !(k == "email_verified"))) = true := by
  decide

/-- Claim C9 (code bug): the values `get_links` actually assembles (one
entry per caller-owned `SocialAccount`, plus the usable-password flag) do
not satisfy the pydantic response schemas — `LinkedAccountInfo` requires
`id` and `created_at`, which the handler never passes (it passes
`provider_user_id` and `linked_at` instead), and `OAuthLinksResponse` has
only a `links` field while the handler passes `accounts` and
`has_usable_password` — so every `GET /oauth/links` request raises a
`ValidationError` instead of returning the list. -/
theorem get_links_schema_bug :
    pydanticInitOk linkedAccountInfoRequired getLinksAccountKwargs = false ∧
    pydanticInitOk oauthLinksResponseRequired getLinksResponseKwargs = false ∧
    getLinksAccountKwargs.contains "id" = false ∧
    getLinksAccountKwargs.contains "created_at" = false ∧
    getLinksResponseKwargs.contains "links" = false ∧
    get_links_accounts
      ⟨[], [⟨7, 1, "google", "g-1", some "a@x.com", none, none, none, none,
        some "Bearer", none, none, 3, 3⟩], [], 8⟩
      ⟨1, "a@x.com", none, true, true, true, "h", false, none⟩ =
      [⟨"google", "g-1", some "a@x.com", none, 3⟩] := by
  decide

/-- Claim C10: on the stored-token update a returning login performs
(`_update_social_account_tokens`, applied at `api/oauth.py` 353–356 to the
`SocialAccount` found for the profile's `(provider, provider_user_id)`),
every token field the exchanged token set omits retains its previously
stored encrypted value, every token field it has a value for is
overwritten, the identity fields `user_id`, `provider` and
`provider_user_id` (and the row's other descriptive fields) are never
modified, and `updated_at` is always set to the current time. -/
theorem update_social_account_tokens_frame (sa : SocialAccountRow)
    (tokens : OAuthTokens) (encTok : String → Option String) (now : Nat) :
    (update_social_account_tokens sa tokens encTok now).updated_at = now ∧
    ((tokens.refresh_token = none ∨ tokens.refresh_token = some "") →
      (update_social_account_tokens sa tokens encTok now).refresh_token_enc =
        sa.refresh_token_enc) ∧
    (update_social_account_tokens sa tokens encTok now).user_id = sa.user_id ∧
    (update_social_account_tokens sa tokens encTok now).provider = sa.provider ∧
    (update_social_account_tokens sa tokens encTok now).provider_user_id =
      sa.provider_user_id ∧
    (update_social_account_tokens sa tokens encTok now).id = sa.id ∧
    (update_social_account_tokens sa tokens encTok now).provider_email =
      sa.provider_email ∧
    (update_social_account_tokens sa tokens encTok now).provider_username =
      sa.provider_username ∧
    (update_social_account_tokens sa tokens encTok now).created_at = sa.created_at ∧
    (tokens.access_token = "" →
      (update_social_account_tokens sa tokens encTok now).access_token_enc =
        sa.access_token_enc) ∧
    ((tokens.id_token = none ∨ tokens.id_token = some "") →
      (update_social_account_tokens sa tokens encTok now).id_token_enc =
        sa.id_token_enc) ∧
    (tokens.token_type = "" →
      (update_social_account_tokens sa tokens encTok now).token_type = sa.token_type) ∧
    ((tokens.scope = none ∨ tokens.scope = some "") →
      (update_social_account_tokens sa tokens encTok now).scope = sa.scope) ∧
    (tokens.expires_at = none →
      (update_social_account_tokens sa tokens encTok now).expires_at = sa.expires_at) ∧
    (tokens.access_token ≠ "" →
      (update_social_account_tokens sa tokens encTok now).access_token_enc =
        encTok tokens.access_token) ∧
    (∀ t, tokens.refresh_token = some t → t ≠ "" →
      (update_social_account_tokens sa tokens encTok now).refresh_token_enc =
        encTok t) ∧
    (∀ t, tokens.id_token = some t → t ≠ "" →
      (update_social_account_tokens sa tokens encTok now).id_token_enc = encTok t) ∧
    (∀ t, tokens.expires_at = some t →
      (update_social_account_tokens sa tokens encTok now).expires_at = some t) := by
  unfold update_social_account_tokens
  refine ⟨rfl, ?_, rfl, rfl, rfl, rfl, rfl, rfl, rfl, ?_, ?_, ?_, ?_, ?_, ?_, ?_, ?_, ?_⟩
  · rintro (h | h) <;> simp [h]
  · intro h; simp [h]
  · rintro (h | h) <;> simp [h]
  · intro h; simp [h]
  · rintro (h | h) <;> simp [h]
  · intro h; simp [h]
  · intro h; simp [h]
  · intro t ht hne; simp [ht, hne]
  · intro t ht hne; simp [ht, hne]
  · intro t ht; simp [ht]

/-- Witness for C10: the frame theorem applied to a concrete row and a
token set that omits `refresh_token`, `id_token`, `scope` and
`expires_at`: the omitted fields keep their stored values, the present
ones are overwritten, `updated_at` is stamped. -/
theorem update_social_account_tokens_frame_witness :
    (update_social_account_tokens
        ⟨7, 1, "google", "g-1", some "a@x.com", none, some "oldAcc", some "oldRef",
          some "oldId", some "Bearer", some "email", some 50, 3, 4⟩
        ⟨"newAcc", "Bearer", none, none, none, some 3600, none⟩
        (fun t => some ("enc:" ++ t)) 99).refresh_token_enc = some "oldRef" ∧
    (update_social_account_tokens
        ⟨7, 1, "google", "g-1", some "a@x.com", none, some "oldAcc", some "oldRef",
          some "oldId", some "Bearer", some "email", some 50, 3, 4⟩
        ⟨"newAcc", "Bearer", none, none, none, some 3600, none⟩
        (fun t => some ("enc:" ++ t)) 99).updated_at = 99 ∧
    (update_social_account_tokens
        ⟨7, 1, "google", "g-1", some "a@x.com", none, some "oldAcc", some "oldRef",
          some "oldId", some "Bearer", some "email", some 50, 3, 4⟩
        ⟨"newAcc", "Bearer", none, none, none, some 3600, none⟩
        (fun t => some ("enc:" ++ t)) 99).access_token_enc = some "enc:newAcc" := by
  have h := update_social_account_tokens_frame
    ⟨7, 1, "google", "g-1", some "a@x.com", none, some "oldAcc", some "oldRef",
      some "oldId", some "Bearer", some "email", some 50, 3, 4⟩
    ⟨"newAcc", "Bearer", none, none, none, some 3600, none⟩
    (fun t => some ("enc:" ++ t)) 99
  exact ⟨h.2.1 (Or.inl rfl), h.1,
    (h.2.2.2.2.2.2.2.2.2.2.2.2.2.2.1 (by decide)).trans rfl⟩

theorem exists_of_eraseP_first {α : Type} (p : α → Bool) {l : List α} {a : α}
    (al : a ∈ l) (pa : p a) :
    ∃ a' l₁ l₂, (∀ b ∈ l₁, ¬ p b) ∧ p a' ∧ l = l₁ ++ a' :: l₂ ∧
      l.eraseP p = l₁ ++ l₂ :=
  List.exists_of_eraseP al pa

theorem find?_append_cons {α : Type} (p : α → Bool) (l₁ l₂ : List α) (a : α)
    (h₁ : ∀ b ∈ l₁, ¬ p b) (ha : p a) :
    List.find? p (l₁ ++ a :: l₂) = some a := by
  induction l₁ with
  | nil => simpa using List.find?_cons_of_pos l₂ ha
  | cons c cs ih =>
      rw [List.cons_append, List.find?_cons_of_neg _ (h₁ c (by simp))]
      exact ih (fun b hb => h₁ b (by simp [hb]))

/-- Claim C3: unlink returns 404 when the caller has no `SocialAccount` for
the requested provider; otherwise, with
`remaining = (social count − 1) + passkey count + (1 if usable password)`,
it refuses with the 400 lockout error leaving every row unchanged when
`remaining = 0`, and otherwise deletes exactly the one found
`SocialAccount` (the store splits around it) and emits the
`social_account_unlinked` event. -/
theorem unlink_account_spec (db : DB) (current_user : UserRow) (provider : String) :
    (db.socials.find? (fun sa => sa.user_id == current_user.id &&
        sa.provider == pyLower provider) = none →
      unlink_account db current_user provider =
        (.error (.http 404 ("No " ++ pyLower provider ++ " account linked")), db, [])) ∧
    (∀ sa, db.socials.find? (fun sa => sa.user_id == current_user.id &&
        sa.provider == pyLower provider) = some sa →
      (((db.socials.filter (fun s => s.user_id == current_user.id)).length - 1 +
          (db.passkeys.filter (fun pk => pk.user_id == current_user.id)).length +
          (if current_user.has_usable_password then 1 else 0) = 0) →
        unlink_account db current_user provider =
          (.error (.http 400 ("Cannot unlink last authentication method. " ++
            "Please add a password or another login method first.")), db, [])) ∧
      (((db.socials.filter (fun s => s.user_id == current_user.id)).length - 1 +
          (db.passkeys.filter (fun pk => pk.user_id == current_user.id)).length +
          (if current_user.has_usable_password then 1 else 0) ≠ 0) →
        ∃ pre post, db.socials = pre ++ sa :: post ∧
          (∀ b ∈ pre, ¬ (b.user_id == current_user.id &&
            b.provider == pyLower provider)) ∧
          unlink_account db current_user provider =
            (.ok (pyLower provider),
             { db with socials := pre ++ post },
             [⟨"social_account_unlinked", toString current_user.id, none,
               pyLower provider⟩]))) := by
  constructor
  · intro hfind
    simp only [unlink_account, hfind]
  · intro sa hfind
    constructor
    · intro hrem
      simp only [unlink_account, hfind]
      rw [if_pos hrem]
    · intro hrem
      have hmem := List.mem_of_find?_eq_some hfind
      have hpa := List.find?_some hfind
      obtain ⟨a', l₁, l₂, hl₁, hpa', heq, herase⟩ :=
        exists_of_eraseP_first
          (fun sa => sa.user_id == current_user.id && sa.provider == pyLower provider)
          hmem hpa
      have ha' : a' = sa := by
        have := find?_append_cons
          (fun sa => sa.user_id == current_user.id && sa.provider == pyLower provider)
          l₁ l₂ a' hl₁ hpa'
        rw [← heq, hfind] at this
        exact (Option.some.injEq _ _).mp this.symm
      subst ha'
      refine ⟨l₁, l₂, heq, hl₁, ?_⟩
      simp only [unlink_account, hfind]
      rw [if_neg hrem, herase]

/-- A store with one user owning a single google link, no passkeys. -/
def unlinkDbW : DB :=
  ⟨[⟨1, "u@x.com", none, true, true, false, "", false, none⟩],
   [⟨5, 1, "google", "g-1", none, none, none, none, none, none, none, none, 0, 0⟩],
   [], 6⟩

/-- The caller of the lockout scenario: no usable password. -/
def unlinkUserW : UserRow := ⟨1, "u@x.com", none, true, true, false, "", false, none⟩

/-- Witness for C3: the spec's lockout scenario — a caller with no usable
password, one social account and zero passkeys is refused with the 400
lockout error and the store is unchanged. -/
theorem unlink_account_spec_witness :
    unlink_account unlinkDbW unlinkUserW "google" =
      (.error (.http 400 ("Cannot unlink last authentication method. " ++
        "Please add a password or another login method first.")), unlinkDbW, []) :=
  ((unlink_account_spec unlinkDbW unlinkUserW "google").2
    ⟨5, 1, "google", "g-1", none, none, none, none, none, none, none, none, 0, 0⟩
    (by decide)).1 (by decide)

theorem except_eq_error_or_ok {ε α : Type} (e : Except ε α) :
    (∃ x, e = .error x) ∨ (∃ a, e = .ok a) := by
  cases e
  · exact Or.inl ⟨_, rfl⟩
  · exact Or.inr ⟨_, rfl⟩

/-- Claim C4: the link operation succeeds only when the verified state has
`mode = "link"` and its embedded `link_user_id` equals the caller's id; it
is rejected (400) when the caller already has a `SocialAccount` for this
provider; it is rejected with a 409 conflict — leaving the store exactly as
the insert-time snapshot and emitting nothing — when the identity
`(provider, provider_user_id)` is already linked to any user; and when the
pre-checks pass on their snapshot but the insert-time store violates a
unique constraint (the concurrent-insert race), the `IntegrityError` is
converted to the same 409 with no row mutated. -/
theorem link_account_spec (h : Bytes → Bytes) (dbCheck dbInsert : DB)
    (current_user : UserRow) (provider : String) (state : SignedState)
    (redirect_uri code_verifier signing_key : String) (now : Nat)
    (identity : Except String (OAuthTokens × OAuthProfile))
    (encTok : String → Option String) :
    (∀ r db' evs,
      link_account h dbCheck dbInsert current_user provider state redirect_uri
        code_verifier signing_key now identity encTok = (.ok r, db', evs) →
      ∃ payload,
        verify_state_for_callback state signing_key provider redirect_uri now =
          .ok payload ∧ payload.mode = some "link" ∧
        payload.link_user_id = some (toString current_user.id)) ∧
    (∀ payload,
      verify_state_for_callback state signing_key provider redirect_uri now =
        .ok payload →
      payload.mode = some "link" →
      payload.link_user_id = some (toString current_user.id) →
      verify_pkce_binding h payload code_verifier = .ok () →
      (∀ sa, dbCheck.socials.find? (fun sa =>
          sa.user_id == current_user.id && sa.provider == provider) = some sa →
        link_account h dbCheck dbInsert current_user provider state redirect_uri
          code_verifier signing_key now identity encTok =
          (.error (.http 400 ("You already have a " ++ provider ++ " account linked")),
           dbInsert, [])) ∧
      (dbCheck.socials.find? (fun sa =>
          sa.user_id == current_user.id && sa.provider == provider) = none →
        ∀ tokens profile, identity = .ok (tokens, profile) →
        (∀ sa, dbCheck.socials.find? (fun sa =>
            sa.provider == provider &&
            sa.provider_user_id == profile.provider_user_id) = some sa →
          link_account h dbCheck dbInsert current_user provider state redirect_uri
            code_verifier signing_key now identity encTok =
            (.error (.http 409 ("This " ++ provider ++
              " account is already linked to another user")), dbInsert, [])) ∧
        (dbCheck.socials.find? (fun sa =>
            sa.provider == provider &&
            sa.provider_user_id == profile.provider_user_id) = none →
          dbInsert.socials.any (fun sa =>
            (sa.provider == provider &&
              sa.provider_user_id == profile.provider_user_id) ||
            (sa.user_id == current_user.id && sa.provider == provider)) = true →
          link_account h dbCheck dbInsert current_user provider state redirect_uri
            code_verifier signing_key now identity encTok =
            (.error (.http 409 ("This " ++ provider ++ " account is already linked")),
             dbInsert, [])))) := by
  constructor
  · intro r db' evs heq
    unfold link_account at heq
    obtain ⟨er, hv⟩ | ⟨payload, hv⟩ := except_eq_error_or_ok
      (verify_state_for_callback state signing_key provider redirect_uri now)
    · rw [hv] at heq
      exact absurd heq (by simp)
    rw [hv] at heq
    dsimp only at heq
    by_cases hmode : payload.mode ≠ some "link"
    · rw [if_pos hmode] at heq
      exact absurd heq (by simp)
    rw [if_neg hmode] at heq
    by_cases hluid : payload.link_user_id ≠ some (toString current_user.id)
    · rw [if_pos hluid] at heq
      exact absurd heq (by simp)
    rw [if_neg hluid] at heq
    refine ⟨payload, hv, not_not.mp hmode, not_not.mp hluid⟩
  · intro payload hv hmode hluid hpkce
    constructor
    · intro sa hsa
      unfold link_account
      rw [hv]
      dsimp only
      rw [if_neg (fun hc => hc hmode), if_neg (fun hc => hc hluid), hpkce]
      dsimp only
      rw [hsa]
    · intro hnone tokens profile hid
      constructor
      · intro sa hsa
        unfold link_account
        rw [hv]
        dsimp only
        rw [if_neg (fun hc => hc hmode), if_neg (fun hc => hc hluid), hpkce]
        dsimp only
        rw [hnone]
        dsimp only
        rw [hid]
        dsimp only
        rw [hsa]
      · intro hnone2 hviol
        unfold link_account
        rw [hv]
        dsimp only
        rw [if_neg (fun hc => hc hmode), if_neg (fun hc => hc hluid), hpkce]
        dsimp only
        rw [hnone]
        dsimp only
        rw [hid]
        dsimp only
        rw [hnone2]
        dsimp only
        unfold create_social_account
        rw [if_pos hviol]

/-- The digest oracle used by concrete witnesses (a constant 32-byte
digest). -/
def linkHashW : Bytes → Bytes := fun _ => List.replicate 32 0

/-- The code challenge matching verifier `"myverifierstring"` under
`linkHashW`. -/
def linkCcW : String :=
  natsToStr (base64urlSha256 linkHashW ("myverifierstring".data.map Char.toNat))

/-- A verified link-mode state payload for caller id 9. -/
def linkPayloadW : StatePayload :=
  ⟨some "oauth_state", some "apple", some "https://app/cb", some "link",
   some linkCcW, some "9", "n", 0, 100⟩

/-- A store in which provider identity `(apple, "a-5")` is linked to
user 7. -/
def linkDbW : DB :=
  ⟨[], [⟨3, 7, "apple", "a-5", none, none, none, none, none, none, none, none, 0, 0⟩],
   [], 4⟩

/-- User 9, the caller attempting to link the already-linked identity. -/
def user9W : UserRow := ⟨9, "nine@x.com", none, true, true, true, "hp", false, none⟩

/-- The provider exchange result for the witness: identity
`(apple, "a-5")`. -/
def linkIdentityW : Except String (OAuthTokens × OAuthProfile) :=
  .ok (⟨"at", "Bearer", none, none, none, none, none⟩,
       ⟨"apple", "a-5", some "nine@x.com", none, none⟩)

/-- Witness for C4: the spec's duplicate-identity scenario — user 9
attempting to link `(apple, "a-5")`, already linked to user 7, is rejected
with the 409 conflict, the store is exactly unchanged and no event is
emitted. -/
theorem link_account_spec_witness :
    link_account linkHashW linkDbW linkDbW user9W "apple" ⟨linkPayloadW, "key"⟩
      "https://app/cb" "myverifierstring" "key" 10 linkIdentityW (fun t => some t) =
      (.error (.http 409 "This apple account is already linked to another user"),
       linkDbW, []) :=
  (((link_account_spec linkHashW linkDbW linkDbW user9W "apple" ⟨linkPayloadW, "key"⟩
      "https://app/cb" "myverifierstring" "key" 10 linkIdentityW
      (fun t => some t)).2 linkPayloadW (by decide) (by decide) (by decide)
      (by decide)).2 (by decide) ⟨"at", "Bearer", none, none, none, none, none⟩
      ⟨"apple", "a-5", some "nine@x.com", none, none⟩ rfl).1
    ⟨3, 7, "apple", "a-5", none, none, none, none, none, none, none, none, 0, 0⟩
    (by decide)

theorem natsToStr_ne_empty {l : Bytes} (hl : l ≠ []) : natsToStr l ≠ "" := by
  unfold natsToStr
  intro h
  apply hl
  have hdata : l.map Char.ofNat = [] := congrArg String.data h
  simpa using hdata

theorem base64urlSha256_ne_empty (h : Bytes → Bytes)
    (hdig : ∀ x, (h x).length = 32) (hbyt : ∀ x, ValidBytes (h x)) (vb : Bytes) :
    natsToStr (base64urlSha256 h vb) ≠ "" := by
  cases hv : h vb with
  | nil =>
      have := hdig vb
      rw [hv] at this
      simp at this
  | cons b rest =>
      apply natsToStr_ne_empty
      unfold base64urlSha256
      rw [hv]
      exact rstripPad_urlsafe_ne_nil (hbyt vb b (by rw [hv]; simp))

theorem verify_pkce_binding_ok_iff (h : Bytes → Bytes)
    (hdig : ∀ x, (h x).length = 32) (hbyt : ∀ x, ValidBytes (h x))
    (payload : StatePayload) (v : String) (vb : Bytes)
    (hasc : pyAsciiEncode v = some vb) :
    (verify_pkce_binding h payload v = .ok () ↔
      payload.cc = some (natsToStr (base64urlSha256 h vb))) ∧
    (∀ e, verify_pkce_binding h payload v = .error e → ∃ d, e = .http 400 d) := by
  have hne := base64urlSha256_ne_empty h hdig hbyt vb
  unfold verify_pkce_binding
  obtain hcc | ⟨c, hcc⟩ := Option.eq_none_or_eq_some payload.cc
  · rw [hcc]
    refine ⟨iff_of_false (by simp) (by simp), ?_⟩
    intro e he
    refine ⟨"OAuth state missing code challenge", ?_⟩
    simpa using he.symm
  · rw [hcc]
    dsimp only
    by_cases hc0 : c = ""
    · rw [if_pos hc0]
      refine ⟨iff_of_false (by simp) ?_, ?_⟩
      · intro hxc
        apply hne
        rw [hc0] at hxc
        exact (by simpa using hxc.symm)
      · intro e he
        exact ⟨"OAuth state missing code challenge", by simpa using he.symm⟩
    · rw [if_neg hc0, hasc]
      dsimp only
      by_cases hneq : natsToStr (base64urlSha256 h vb) ≠ c
      · rw [if_pos hneq]
        refine ⟨iff_of_false (by simp) ?_, ?_⟩
        · intro hxc
          exact hneq (by simpa using hxc.symm)
        · intro e he
          exact ⟨"PKCE verification failed", by simpa using he.symm⟩
      · rw [if_neg hneq]
        refine ⟨iff_of_true rfl (by rw [not_not.mp hneq]), ?_⟩
        intro e he
        exact absurd he (by simp)

/-- Claim C1: for every callback or link request whose state token
verifies, the flow proceeds past PKCE verification if and only if
`base64url(SHA256(code_verifier))` with `=` padding stripped equals the
`cc` field of the verified state byte for byte; a state lacking a truthy
`cc`, or a failed comparison, rejects the request with a 400 before any
token exchange (in both the callback and the link endpoint); and the login
callback rejects with a 400 every verified state whose mode is `"link"`.
The digest function is universally quantified under the SHA-256 contract
(32 bytes of output); the verifier must be ASCII-encodable, as
`value.encode("ascii")` requires. -/
theorem pkce_binding_spec (h : Bytes → Bytes)
    (hdig : ∀ x, (h x).length = 32) (hbyt : ∀ x, ValidBytes (h x))
    (provider : String) (state : SignedState)
    (redirect_uri code_verifier signing_key : String) (now : Nat)
    (payload : StatePayload) (vb : Bytes)
    (hver : verify_state_for_callback state signing_key provider redirect_uri now =
      .ok payload)
    (hasc : pyAsciiEncode code_verifier = some vb) :
    (verify_pkce_binding h payload code_verifier = .ok () ↔
      payload.cc = some (natsToStr (base64urlSha256 h vb))) ∧
    (payload.mode = some "link" →
      callback_preExchange h provider state redirect_uri code_verifier signing_key now =
        .rejected (.http 400
          "Use /oauth/links/{provider}/link endpoint for account linking")) ∧
    (payload.mode ≠ some "link" →
      ((callback_preExchange h provider state redirect_uri code_verifier signing_key
          now = .proceedToExchange payload) ↔
        payload.cc = some (natsToStr (base64urlSha256 h vb))) ∧
      (payload.cc ≠ some (natsToStr (base64urlSha256 h vb)) →
        ∃ d, callback_preExchange h provider state redirect_uri code_verifier
          signing_key now = .rejected (.http 400 d))) ∧
    (∀ dbCheck dbInsert current_user identity encTok,
      payload.cc ≠ some (natsToStr (base64urlSha256 h vb)) →
      ∃ d, link_account h dbCheck dbInsert current_user provider state redirect_uri
        code_verifier signing_key now identity encTok =
        (.error (.http 400 d), dbInsert, [])) := by
  have hiff := verify_pkce_binding_ok_iff h hdig hbyt payload code_verifier vb hasc
  refine ⟨hiff.1, ?_, ?_, ?_⟩
  · intro hmode
    unfold callback_preExchange
    rw [hver]
    dsimp only
    rw [if_pos hmode]
  · intro hmode
    constructor
    · constructor
      · intro hproc
        unfold callback_preExchange at hproc
        rw [hver] at hproc
        dsimp only at hproc
        rw [if_neg hmode] at hproc
        obtain ⟨er, he⟩ | ⟨u, hu⟩ := except_eq_error_or_ok
          (verify_pkce_binding h payload code_verifier)
        · rw [he] at hproc
          exact absurd hproc (by simp)
        · cases u
          exact hiff.1.mp hu
      · intro hcc
        unfold callback_preExchange
        rw [hver]
        dsimp only
        rw [if_neg hmode, hiff.1.mpr hcc]
    · intro hcc
      obtain ⟨er, he⟩ | ⟨u, hu⟩ := except_eq_error_or_ok
        (verify_pkce_binding h payload code_verifier)
      · obtain ⟨d, hd⟩ := hiff.2 er he
        refine ⟨d, ?_⟩
        unfold callback_preExchange
        rw [hver]
        dsimp only
        rw [if_neg hmode, he]
        dsimp only
        rw [hd]
      · cases u
        exact absurd (hiff.1.mp hu) hcc
  · intro dbCheck dbInsert current_user identity encTok hcc
    unfold link_account
    rw [hver]
    dsimp only
    by_cases hmode : payload.mode ≠ some "link"
    · exact ⟨"State was not created for account linking", by rw [if_pos hmode]⟩
    rw [if_neg hmode]
    by_cases hluid : payload.link_user_id ≠ some (toString current_user.id)
    · exact ⟨"State was created for a different user", by rw [if_pos hluid]⟩
    rw [if_neg hluid]
    obtain ⟨er, he⟩ | ⟨u, hu⟩ := except_eq_error_or_ok
      (verify_pkce_binding h payload code_verifier)
    · obtain ⟨d, hd⟩ := hiff.2 er he
      refine ⟨d, ?_⟩
      rw [he]
      dsimp only
      rw [hd]
    · cases u
      exact absurd (hiff.1.mp hu) hcc

/-- A verified login-mode state payload carrying the challenge for
verifier `"myverifierstring"`. -/
def loginPayloadW : StatePayload :=
  ⟨some "oauth_state", some "google", some "https://app/cb", some "login",
   some linkCcW, none, "n", 0, 100⟩

/-- Witness for C1: with the concrete digest oracle and a login-mode state
whose `cc` matches the verifier, the callback proceeds past PKCE to the
exchange. -/
theorem pkce_binding_spec_witness :
    callback_preExchange linkHashW "google" ⟨loginPayloadW, "key"⟩ "https://app/cb"
      "myverifierstring" "key" 10 = .proceedToExchange loginPayloadW :=
  (((pkce_binding_spec linkHashW
      (fun x => by simp [linkHashW])
      (fun x b hb => by simp [linkHashW] at hb; omega)
      "google" ⟨loginPayloadW, "key"⟩ "https://app/cb" "myverifierstring" "key" 10
      loginPayloadW ("myverifierstring".data.map Char.toNat)
      (by decide) (by decide)).2.2.1 (by decide)).1).mpr rfl

end AuthKit
